import Mathlib

/-!
Verification of the Zerverless flask-example app (`src/example/app.py`).

The development embeds, as executable Lean definitions:
  * a model of Python `json.loads` / `json.dumps` on a `Json` value type,
  * the `handle` function of `app.py` (lines 91-169), both at the raw
    JSON level (fields of the request dict may be arbitrary JSON values,
    Python exceptions become `Except.error`) and at the typed request
    level (`dispatch`, the shape server mode and well-typed one-shot
    inputs always produce),
  * the module-level one-shot stdin/stdout block (lines 174-187).
Theorems about these definitions settle the specification claims.
-/

/-- JSON values as produced by Python `json.loads`.  Python dicts preserve
insertion order, so objects are ordered association lists.  Non-integral
numeric literals (floats, and the `NaN`/`Infinity` constants that Python's
`json.loads` accepts) are kept verbatim as `fnum` literals: no claim
depends on float arithmetic, only on parse success. -/
inductive Json where
  | null : Json
  | bool : Bool → Json
  | num : Int → Json
  | fnum : String → Json
  | str : String → Json
  | arr : List Json → Json
  | obj : List (String × Json) → Json

namespace Json

/-- Python truthiness of a JSON-decoded value (`if body:`): empty string,
zero, `False`, `None`, empty list and empty dict are falsy. -/
def truthy : Json → Bool
  | .null => false
  | .bool b => b
  | .num n => n != 0
  | .fnum _ => true
  | .str s => s != ""
  | .arr [] => false
  | .arr (_ :: _) => true
  | .obj [] => false
  | .obj (_ :: _) => true

/-- Whether a decoded value is a mapping (a Python dict). -/
def isMapping : Json → Bool
  | .obj _ => true
  | _ => false

/-- Python `==` between a decoded JSON value and a string literal:
cross-type comparison with `str` is `False`, same-type is string equality. -/
def eqStr : Json → String → Bool
  | .str t, s => t = s
  | _, _ => false

/-- `dict.get(k, default)` on the ordered association list of an object. -/
def getD (fields : List (String × Json)) (k : String) (d : Json) : Json :=
  match fields.lookup k with
  | some v => v
  | none => d

/-- Insertion into a Python dict under construction: a repeated key keeps
its first position but takes the new value (`json.loads` duplicate-key
behaviour, last value wins). -/
def insertKey (fields : List (String × Json)) (k : String) (v : Json) :
    List (String × Json) :=
  match fields with
  | [] => [(k, v)]
  | (k', v') :: rest =>
      if k' = k then (k', v) :: rest else (k', v') :: insertKey rest k v

end Json

/-! ## Model of `json.loads` -/

/-- Skip JSON whitespace (space, tab, newline, carriage return). -/
def skipWs : List Char → List Char
  | c :: cs => if c = ' ' ∨ c = '\t' ∨ c = '\n' ∨ c = '\r' then skipWs cs else c :: cs
  | [] => []

/-- Value of a hexadecimal digit. -/
def hexVal (c : Char) : Option Nat :=
  if '0' ≤ c ∧ c ≤ '9' then some (c.toNat - '0'.toNat)
  else if 'a' ≤ c ∧ c ≤ 'f' then some (c.toNat - 'a'.toNat + 10)
  else if 'A' ≤ c ∧ c ≤ 'F' then some (c.toNat - 'A'.toNat + 10)
  else none

/-- Body of a JSON string literal, after the opening quote.  Strict mode:
raw control characters below 0x20 are rejected; the escapes are
`\" \\ \/ \b \f \n \r \t \uXXXX`, with surrogate pairs combined.  The
`fuel` argument only forces termination; any fuel above the input length
is enough. -/
def parseStringBody : Nat → List Char → String → Option (String × List Char)
  | 0, _, _ => none
  | _ + 1, [], _ => none
  | _ + 1, '"' :: rest, acc => some (acc, rest)
  | fuel + 1, '\\' :: esc, acc =>
    match esc with
    | '"' :: rest => parseStringBody fuel rest (acc.push '"')
    | '\\' :: rest => parseStringBody fuel rest (acc.push '\\')
    | '/' :: rest => parseStringBody fuel rest (acc.push '/')
    | 'b' :: rest => parseStringBody fuel rest (acc.push (Char.ofNat 8))
    | 'f' :: rest => parseStringBody fuel rest (acc.push (Char.ofNat 12))
    | 'n' :: rest => parseStringBody fuel rest (acc.push '\n')
    | 'r' :: rest => parseStringBody fuel rest (acc.push '\r')
    | 't' :: rest => parseStringBody fuel rest (acc.push '\t')
    | 'u' :: h1 :: h2 :: h3 :: h4 :: rest =>
      match hexVal h1, hexVal h2, hexVal h3, hexVal h4 with
      | some a, some b, some c, some d =>
        let n := ((a * 16 + b) * 16 + c) * 16 + d
        if 0xD800 ≤ n ∧ n ≤ 0xDBFF then
          match rest with
          | '\\' :: 'u' :: g1 :: g2 :: g3 :: g4 :: rest2 =>
            match hexVal g1, hexVal g2, hexVal g3, hexVal g4 with
            | some a2, some b2, some c2, some d2 =>
              let m := ((a2 * 16 + b2) * 16 + c2) * 16 + d2
              if 0xDC00 ≤ m ∧ m ≤ 0xDFFF then
                parseStringBody fuel rest2
                  (acc.push (Char.ofNat (0x10000 + (n - 0xD800) * 0x400 + (m - 0xDC00))))
              else parseStringBody fuel rest2 ((acc.push (Char.ofNat n)).push (Char.ofNat m))
            | _, _, _, _ => none
          | _ => parseStringBody fuel rest (acc.push (Char.ofNat n))
        else parseStringBody fuel rest (acc.push (Char.ofNat n))
      | _, _, _, _ => none
    | _ => none
  | fuel + 1, c :: rest, acc =>
      if c.toNat < 0x20 then none else parseStringBody fuel rest (acc.push c)

/-- Longest prefix of decimal digits, returned with the remainder. -/
def takeDigits : List Char → List Char × List Char
  | [] => ([], [])
  | c :: cs =>
      if c.isDigit then
        let (ds, rest) := takeDigits cs
        (c :: ds, rest)
      else ([], c :: cs)

/-- Decimal value of a digit list. -/
def digitsToNat (ds : List Char) : Nat :=
  ds.foldl (fun acc c => acc * 10 + (c.toNat - '0'.toNat)) 0

/-- A JSON number literal: `-?(0|[1-9][0-9]*)(\.[0-9]+)?([eE][+-]?[0-9]+)?`.
A literal with a fraction or exponent part is kept verbatim as `Json.fnum`;
a bare integer becomes `Json.num`. -/
def parseNumber (s : List Char) : Option (Json × List Char) :=
  let (neg, s1) := match s with
    | '-' :: rest => (true, rest)
    | _ => (false, s)
  let (intDs, s2) := takeDigits s1
  if intDs = [] then none
  else if intDs.length > 1 ∧ intDs.headI = '0' then none
  else
    let (fracDs, s3) := match s2 with
      | '.' :: rest =>
        let (ds, r) := takeDigits rest
        (some ds, r)
      | _ => (none, s2)
    match fracDs with
    | some [] => none
    | _ =>
      let expPart : Option (List Char) := match s3 with
        | 'e' :: rest => some rest
        | 'E' :: rest => some rest
        | _ => none
      match expPart with
      | none =>
        match fracDs with
        | none =>
          let v : Int := Int.ofNat (digitsToNat intDs)
          some (Json.num (if neg then -v else v), s3)
        | some fd =>
          let lit := (if neg then "-" else "") ++ String.mk intDs ++ "." ++ String.mk fd
          some (Json.fnum lit, s3)
      | some afterE =>
        let (esign, s5) := match afterE with
          | '+' :: rest => ("+", rest)
          | '-' :: rest => ("-", rest)
          | _ => ("", afterE)
        let (expDs, s6) := takeDigits s5
        if expDs = [] then none
        else
          let fracLit := match fracDs with
            | some fd => "." ++ String.mk fd
            | none => ""
          let lit := (if neg then "-" else "") ++ String.mk intDs ++ fracLit ++
            "e" ++ esign ++ String.mk expDs
          some (Json.fnum lit, s6)

mutual

/-- A JSON value: container openers dispatch to the body parsers, the
literals `true`/`false`/`null` and the Python-specific constants
`NaN`/`Infinity`/`-Infinity` are recognised, everything else is tried as a
number.  `fuel` only forces termination. -/
def parseValue : Nat → List Char → Option (Json × List Char)
  | 0, _ => none
  | fuel + 1, s =>
    match skipWs s with
    | '\x7b' :: rest => parseObjBody fuel rest []
    | '[' :: rest => parseArrBody fuel rest []
    | '"' :: rest =>
      match parseStringBody (rest.length + 1) rest "" with
      | some (str, r) => some (Json.str str, r)
      | none => none
    | 't' :: 'r' :: 'u' :: 'e' :: rest => some (Json.bool true, rest)
    | 'f' :: 'a' :: 'l' :: 's' :: 'e' :: rest => some (Json.bool false, rest)
    | 'n' :: 'u' :: 'l' :: 'l' :: rest => some (Json.null, rest)
    | 'N' :: 'a' :: 'N' :: rest => some (Json.fnum "nan", rest)
    | 'I' :: 'n' :: 'f' :: 'i' :: 'n' :: 'i' :: 't' :: 'y' :: rest =>
      some (Json.fnum "inf", rest)
    | '-' :: 'I' :: 'n' :: 'f' :: 'i' :: 'n' :: 'i' :: 't' :: 'y' :: rest =>
      some (Json.fnum "-inf", rest)
    | s1 => parseNumber s1

/-- Members of an object, after the opening brace or after a comma.
A closing brace is only accepted directly when no member has been read
(no trailing comma).  Duplicate keys follow Python dict semantics via
`Json.insertKey`. -/
def parseObjBody : Nat → List Char → List (String × Json) →
    Option (Json × List Char)
  | 0, _, _ => none
  | fuel + 1, s, acc =>
    match skipWs s with
    | '\x7d' :: rest => if acc.isEmpty then some (Json.obj [], rest) else none
    | '"' :: rest =>
      match parseStringBody (rest.length + 1) rest "" with
      | none => none
      | some (key, r1) =>
        match skipWs r1 with
        | ':' :: r2 =>
          match parseValue fuel r2 with
          | none => none
          | some (v, r3) =>
            let acc1 := Json.insertKey acc key v
            match skipWs r3 with
            | ',' :: r4 => parseObjBody fuel r4 acc1
            | '\x7d' :: r4 => some (Json.obj acc1, r4)
            | _ => none
        | _ => none
    | _ => none

/-- Elements of an array, after the opening bracket or after a comma.
A closing bracket is only accepted directly when no element has been read. -/
def parseArrBody : Nat → List Char → List Json → Option (Json × List Char)
  | 0, _, _ => none
  | fuel + 1, s, acc =>
    match skipWs s with
    | ']' :: rest => if acc.isEmpty then some (Json.arr [], rest) else none
    | s1 =>
      match parseValue fuel s1 with
      | none => none
      | some (v, r1) =>
        match skipWs r1 with
        | ',' :: r2 => parseArrBody fuel r2 (acc ++ [v])
        | ']' :: r2 => some (Json.arr (acc ++ [v]), r2)
        | _ => none

end

/-- Model of Python `json.loads`: parse one value, require only whitespace
after it.  The empty (or whitespace-only) string is a parse error, as in
Python.  The fuel `2 * length + 8` exceeds the recursion depth of any
input, since every nesting level consumes at least one character. -/
def jsonParse (s : String) : Option Json :=
  let cs := s.toList
  match parseValue (2 * cs.length + 8) cs with
  | some (v, rest) => if skipWs rest = [] then some v else none
  | none => none

/-! ## Model of `json.dumps` -/

/-- Lowercase hexadecimal digit. -/
def hexDigit (n : Nat) : Char :=
  if n < 10 then Char.ofNat ('0'.toNat + n) else Char.ofNat ('a'.toNat + n - 10)

/-- Four lowercase hexadecimal digits. -/
def hex4 (n : Nat) : String :=
  String.mk [hexDigit (n / 4096 % 16), hexDigit (n / 256 % 16),
    hexDigit (n / 16 % 16), hexDigit (n % 16)]

/-- A `\uXXXX` escape, as a surrogate pair beyond the basic plane. -/
def uEsc (n : Nat) : String :=
  if n ≤ 0xFFFF then "\\u" ++ hex4 n
  else
    let m := n - 0x10000
    "\\u" ++ hex4 (0xD800 + m / 0x400) ++ "\\u" ++ hex4 (0xDC00 + m % 0x400)

/-- One character of a dumped string under `json.dumps` defaults
(`ensure_ascii=True`): short escapes for the usual control characters,
`\uXXXX` for other controls and for everything outside printable ASCII. -/
def escChar (c : Char) : String :=
  if c = '"' then "\\\""
  else if c = '\\' then "\\\\"
  else if c = '\n' then "\\n"
  else if c = '\r' then "\\r"
  else if c = '\t' then "\\t"
  else if c.toNat = 8 then "\\b"
  else if c.toNat = 12 then "\\f"
  else if c.toNat < 0x20 ∨ 0x7e < c.toNat then uEsc c.toNat
  else String.singleton c

/-- A JSON string literal as `json.dumps` writes it. -/
def dumpStr (s : String) : String :=
  "\"" ++ String.join (s.toList.map escChar) ++ "\""

mutual

/-- Model of Python `json.dumps` with default arguments: separators
`", "` and `": "`, insertion order preserved.  A `fnum` literal is
emitted verbatim (floats never occur in the documents the app builds). -/
def Json.dumps : Json → String
  | .null => "null"
  | .bool true => "true"
  | .bool false => "false"
  | .num n => toString n
  | .fnum lit => lit
  | .str s => dumpStr s
  | .arr xs => "[" ++ dumpsArr xs ++ "]"
  | .obj fs => "\x7b" ++ dumpsObj fs ++ "\x7d"

/-- Comma-joined array elements. -/
def dumpsArr : List Json → String
  | [] => ""
  | [x] => Json.dumps x
  | x :: rest => Json.dumps x ++ ", " ++ dumpsArr rest

/-- Comma-joined `"key": value` members. -/
def dumpsObj : List (String × Json) → String
  | [] => ""
  | [(k, v)] => dumpStr k ++ ": " ++ Json.dumps v
  | (k, v) :: rest => dumpStr k ++ ": " ++ Json.dumps v ++ ", " ++ dumpsObj rest

end

/-- Field of an object, `none` on a missing key or a non-object. -/
def Json.lookup : Json → String → Option Json
  | .obj fields, k => fields.lookup k
  | _, _ => none

/-! ## The app's data model (`src/example/app.py`) -/

/-- Response record returned by `handle`: lines 113-121 etc. of `app.py`. -/
structure Response where
  status : Int
  headers : List (String × String)
  body : String
deriving DecidableEq, Repr

/-- Canonical request record with string-typed fields, the shape produced
by server mode (lines 17-23 of `app.py`) and by well-typed one-shot input. -/
structure Request where
  method : String
  path : String
  query : List (String × String)
  headers : List (String × String)
  body : String
deriving DecidableEq, Repr

/-- The header mapping every route attaches. -/
def jsonHeaders : List (String × String) := [("Content-Type", "application/json")]

/-- Lines 102-109 of `app.py`: `body_data = json.loads(body)` when the body
string is nonempty, the empty dict when it is empty, and the bare `except`
turns any decode failure into the empty dict as well. -/
def parseBody (body : String) : Json :=
  if body = "" then Json.obj []
  else
    match jsonParse body with
    | some v => v
    | none => Json.obj []

/-- Greeting document (lines 116-120); `path` and `method` are embedded
values of the request dict, which one-shot input can make non-strings. -/
def helloDoc (path method : Json) : Json :=
  Json.obj [("message", Json.str "Hello from Flask!"), ("path", path),
    ("method", method)]

/-- The fixed user list document (lines 128-133). -/
def usersDoc : Json :=
  Json.obj [("users", Json.arr
    [Json.obj [("id", Json.num 1), ("name", Json.str "Alice")],
     Json.obj [("id", Json.num 2), ("name", Json.str "Bob")]])]

/-- Creation echo document (lines 139-142). -/
def createdDoc (body_data : Json) : Json :=
  Json.obj [("message", Json.str "User created"), ("data", body_data)]

/-- User detail document (lines 150-154). -/
def userDetailDoc (user_id path : String) : Json :=
  Json.obj [("id", Json.str user_id), ("name", Json.str ("User " ++ user_id)),
    ("path", Json.str path)]

/-- Health document (line 161). -/
def healthDoc : Json :=
  Json.obj [("status", Json.str "healthy"), ("service", Json.str "flask-app")]

/-- Not-found document (line 168). -/
def notFoundDoc (path : Json) : Json :=
  Json.obj [("error", Json.str "Not found"), ("path", path)]

/-- Python `str.startswith`: character-wise prefix test. -/
def startswith (s pre : String) : Bool := pre.toList.isPrefixOf s.toList

/-- Python `str.split(sep)` for a one-character separator, on character
lists: always at least one (possibly empty) segment. -/
def splitOnChar (sep : Char) : List Char → List (List Char)
  | [] => [[]]
  | c :: cs =>
    match splitOnChar sep cs with
    | [] => [[]]
    | seg :: segs => if c = sep then [] :: seg :: segs else (c :: seg) :: segs

/-- Line 146 of `app.py`: `user_id = path.split('/')[-1]`, the substring
after the last slash. -/
def lastSegment (p : String) : String :=
  String.mk ((splitOnChar '/' p.toList).getLastD [])

/-- The `handle` function of `app.py` (lines 91-169) on a string-typed
request record.  `none` is the implicit `None` Python returns when the
users-collection branch matches but neither inner method test does. -/
def dispatch (req : Request) : Option Response :=
  let method := req.method
  let path := req.path
  let body_data := parseBody req.body
  if path = "/" ∨ path = "/flask-example" ∨ path = "/flask-example/hello" then
    some ⟨200, jsonHeaders, (helloDoc (Json.str path) (Json.str method)).dumps⟩
  else if path = "/flask-example/users" then
    if method = "GET" then
      some ⟨200, jsonHeaders, usersDoc.dumps⟩
    else if method = "POST" then
      some ⟨201, jsonHeaders, (createdDoc body_data).dumps⟩
    else
      none
  else if startswith path "/flask-example/users/" then
    some ⟨200, jsonHeaders, (userDetailDoc (lastSegment path) path).dumps⟩
  else if path = "/flask-example/health" then
    some ⟨200, jsonHeaders, healthDoc.dumps⟩
  else
    some ⟨404, jsonHeaders, (notFoundDoc (Json.str path)).dumps⟩

/-- The `handle` function of `app.py` (lines 91-169) on the raw decoded
JSON value of one-shot mode, where every field of the request dict may be
an arbitrary JSON value.  `Except.error` marks the places where the Python
code raises: `.get` on a non-dict (line 96) and `.startswith` on a
non-string path (line 145); both `AttributeError`s escape `handle` and are
only caught by the one-shot top level.  `==` against a string literal is
`False` for non-strings, so a non-string `method` simply matches no route
method and a non-string `body` is truthy-or-falsy per Python and feeds
`json.loads` a non-string, whose `TypeError` the bare `except` swallows
into the empty dict. -/
def handle (req : Json) : Except Unit (Option Response) :=
  match req with
  | Json.obj fields =>
    let method := Json.getD fields "method" (Json.str "GET")
    let path := Json.getD fields "path" (Json.str "/")
    let body := Json.getD fields "body" (Json.str "")
    let body_data : Json :=
      if body.truthy then
        match body with
        | Json.str s =>
          match jsonParse s with
          | some v => v
          | none => Json.obj []
        | _ => Json.obj []
      else Json.obj []
    if path.eqStr "/" || path.eqStr "/flask-example" ||
        path.eqStr "/flask-example/hello" then
      Except.ok (some ⟨200, jsonHeaders, (helloDoc path method).dumps⟩)
    else if path.eqStr "/flask-example/users" then
      if method.eqStr "GET" then
        Except.ok (some ⟨200, jsonHeaders, usersDoc.dumps⟩)
      else if method.eqStr "POST" then
        Except.ok (some ⟨201, jsonHeaders, (createdDoc body_data).dumps⟩)
      else
        Except.ok none
    else
      match path with
      | Json.str p =>
        if startswith p "/flask-example/users/" then
          Except.ok (some ⟨200, jsonHeaders, (userDetailDoc (lastSegment p) p).dumps⟩)
        else if p = "/flask-example/health" then
          Except.ok (some ⟨200, jsonHeaders, healthDoc.dumps⟩)
        else
          Except.ok (some ⟨404, jsonHeaders, (notFoundDoc (Json.str p)).dumps⟩)
      | _ => Except.error ()
  | _ => Except.error ()

/-! ## The one-shot stdin/stdout block (lines 174-187) -/

/-- The response dict as `print(json.dumps(result))` serialises it. -/
def responseToJson (r : Response) : Json :=
  Json.obj [("status", Json.num r.status),
    ("headers", Json.obj (r.headers.map (fun p => (p.1, Json.str p.2)))),
    ("body", Json.str r.body)]

/-- `json.dumps(result)` also accepts the implicit `None` result, which
serialises as `null`. -/
def resultToJson : Option Response → Json
  | some r => responseToJson r
  | none => Json.null

/-- Observable outcome of the one-shot block: either the normal path
printed a document, or an exception reached the `except` handler, which
printed the 500 document built by `error_response` from the exception's
message (the message itself comes from the Python runtime and is not
modelled). -/
inductive OneShotOut where
  | printed : Json → OneShotOut
  | errorPrinted : OneShotOut

/-- Lines 176-180 of `app.py`: read stdin, `json.loads` it unless empty
(empty substitutes the empty dict), run `handle`, print the result.
A parse error on the input or an error escaping `handle` reaches the
`except` branch. -/
def oneShot (input : String) : OneShotOut :=
  match (if input = "" then some (Json.obj []) else jsonParse input) with
  | none => OneShotOut.errorPrinted
  | some req =>
    match handle req with
    | Except.ok result => OneShotOut.printed (resultToJson result)
    | Except.error _ => OneShotOut.errorPrinted

/-- Lines 182-186 of `app.py`: the document printed by the `except`
branch, as a function of the exception's textual message `str(e)`. -/
def error_response (msg : String) : Json :=
  Json.obj [("status", Json.num 500),
    ("headers", Json.obj [("Content-Type", Json.str "application/json")]),
    ("body", Json.str (Json.dumps (Json.obj [("error", Json.str msg)])))]

/-- The request dict a string-typed request record denotes, i.e. what
server mode (lines 17-23) hands to `handle` and what one-shot mode decodes
from well-typed input. -/
def reqToJson (r : Request) : Json :=
  Json.obj [("method", Json.str r.method), ("path", Json.str r.path),
    ("query", Json.obj (r.query.map (fun p => (p.1, Json.str p.2)))),
    ("headers", Json.obj (r.headers.map (fun p => (p.1, Json.str p.2)))),
    ("body", Json.str r.body)]

set_option maxRecDepth 4000

/-! ## Helper lemmas -/

/-- Reading the `method` key of a request dict. -/
theorem getD_method (a b c d e : Json) :
    Json.getD [("method", a), ("path", b), ("query", c), ("headers", d), ("body", e)]
      "method" (Json.str "GET") = a := rfl

/-- Reading the `path` key of a request dict. -/
theorem getD_path (a b c d e : Json) :
    Json.getD [("method", a), ("path", b), ("query", c), ("headers", d), ("body", e)]
      "path" (Json.str "/") = b := rfl

/-- Reading the `body` key of a request dict. -/
theorem getD_body (a b c d e : Json) :
    Json.getD [("method", a), ("path", b), ("query", c), ("headers", d), ("body", e)]
      "body" (Json.str "") = e := rfl

/-- Coherence of the two levels of the embedding: on the request dict of a
string-typed request record, `handle` never raises and computes exactly
what `dispatch` computes. -/
theorem handle_reqToJson (r : Request) :
    handle (reqToJson r) = Except.ok (dispatch r) := by
  obtain ⟨m, p, q, h, b⟩ := r
  by_cases h1 : p = "/" <;> by_cases h2 : p = "/flask-example" <;>
    by_cases h3 : p = "/flask-example/hello" <;>
    by_cases h4 : p = "/flask-example/users" <;>
    by_cases hm1 : m = "GET" <;> by_cases hm2 : m = "POST" <;>
    by_cases hb : b = "" <;>
    simp [handle, reqToJson, getD_method, getD_path, getD_body, dispatch,
      parseBody, Json.eqStr, Json.truthy, h1, h2, h3, h4, hm1, hm2, hb] <;>
    split_ifs <;> simp

/-- Characterisation of the silent fall-through: `dispatch` yields no
response exactly on the users-collection path with a method other than
`GET` and `POST`. -/
theorem dispatch_none_iff (r : Request) :
    dispatch r = none ↔
      r.path = "/flask-example/users" ∧ r.method ≠ "GET" ∧ r.method ≠ "POST" := by
  obtain ⟨m, p, q, h, b⟩ := r
  simp only
  by_cases h1 : p = "/" <;> by_cases h2 : p = "/flask-example" <;>
    by_cases h3 : p = "/flask-example/hello" <;>
    by_cases h4 : p = "/flask-example/users" <;>
    by_cases hm1 : m = "GET" <;> by_cases hm2 : m = "POST" <;>
    simp [dispatch, h1, h2, h3, h4, hm1, hm2] <;>
    split_ifs <;> simp

/-- Every response `dispatch` does produce carries the JSON content-type
header mapping and one of the status codes 200, 201 and 404. -/
theorem dispatch_some_wellformed (r : Request) (resp : Response)
    (hr : dispatch r = some resp) :
    resp.headers = jsonHeaders ∧
      (resp.status = 200 ∨ resp.status = 201 ∨ resp.status = 404) := by
  obtain ⟨m, p, q, h, b⟩ := r
  simp only [dispatch] at hr
  split_ifs at hr <;> simp_all <;> (obtain rfl := hr.symm) <;> simp

/-! ## Claims -/

/-- C1, counterexample: on the one-shot input `"\x7bnot json"` — nonempty
and not valid JSON — the block does NOT degrade to all-default fields: it
prints the 500 error document of the `except` branch, not the dispatch of
the all-default request. -/
theorem oneShot_invalid_input_counterexample :
    jsonParse "\x7bnot json" = none ∧
    oneShot "\x7bnot json" = OneShotOut.errorPrinted ∧
    oneShot "\x7bnot json" ≠
      OneShotOut.printed (resultToJson (dispatch ⟨"GET", "/", [], [], ""⟩)) := by
  refine ⟨rfl, rfl, fun hc => ?_⟩
  rw [show oneShot "\x7bnot json" = OneShotOut.errorPrinted from rfl] at hc
  exact OneShotOut.noConfusion hc

/-- C1, amended: a nonempty one-shot input that is not valid JSON makes
`json.loads` raise inside the `try` block, so the block prints the 500
error document instead of dispatching; only empty input degrades to the
all-default request. -/
theorem oneShot_invalid_input_500 (input : String) (hne : input ≠ "")
    (hbad : jsonParse input = none) :
    oneShot input = OneShotOut.errorPrinted := by
  simp [oneShot, hne, hbad]

/-- C1, witness: the amended claim at the concrete input `"\x7bnot json"`. -/
theorem oneShot_invalid_input_500_witness :
    ("\x7bnot json" : String) ≠ "" ∧
      oneShot "\x7bnot json" = OneShotOut.errorPrinted :=
  ⟨by decide, oneShot_invalid_input_500 "\x7bnot json" (by decide) rfl⟩

/-- C2: a request for the users-collection path whose method is neither
`GET` nor `POST` makes `handle` fall through both inner branches and
return Python's implicit `None`: no response record is produced. -/
theorem dispatch_users_unsupported_method_none (r : Request)
    (hpath : r.path = "/flask-example/users")
    (hget : r.method ≠ "GET") (hpost : r.method ≠ "POST") :
    dispatch r = none := by
  obtain ⟨m, p, q, h, b⟩ := r
  simp only at hpath hget hpost
  subst hpath
  simp [dispatch, hget, hpost]

/-- C2, witness: a `DELETE` on the users collection produces no response. -/
theorem dispatch_users_unsupported_method_none_witness :
    dispatch ⟨"DELETE", "/flask-example/users", [], [], ""⟩ = none :=
  dispatch_users_unsupported_method_none
    ⟨"DELETE", "/flask-example/users", [], [], ""⟩ rfl (by decide) (by decide)

/-- C3, counterexample: the body string `"null"` is valid JSON, decodes to
`None`, and `body_data` is then exactly `None` — null, not a mapping — and
`POST` on the users collection echoes that null back.  The claim that
`body_data` is always a mapping and never null is false. -/
theorem parseBody_not_always_mapping :
    jsonParse "null" = some Json.null ∧
    parseBody "null" = Json.null ∧
    Json.isMapping (parseBody "null") = false ∧
    dispatch ⟨"POST", "/flask-example/users", [], [], "null"⟩ =
      some ⟨201, jsonHeaders, (createdDoc Json.null).dumps⟩ :=
  ⟨rfl, rfl, rfl, rfl⟩

/-- C3, amended: `body_data` is always defined and never a parse-failure
object: an empty body or a body that fails to decode yields the empty
mapping, and a body that decodes yields exactly the decoded JSON value —
which need not be a mapping and is null for the body `"null"`. -/
theorem parseBody_never_fails (body : String) :
    (body = "" → parseBody body = Json.obj []) ∧
    (jsonParse body = none → parseBody body = Json.obj []) ∧
    (∀ v, jsonParse body = some v → body ≠ "" → parseBody body = v) := by
  refine ⟨fun hb => by simp [parseBody, hb], fun hb => ?_, fun v hv hne => ?_⟩
  · by_cases hbe : body = "" <;> simp [parseBody, hbe, hb]
  · simp [parseBody, hne, hv]

/-- C3, witness: the amended claim at an empty body, an unparsable body
and a body decoding to a non-mapping. -/
theorem parseBody_never_fails_witness :
    parseBody "" = Json.obj [] ∧
    parseBody "\x7boops" = Json.obj [] ∧
    parseBody "[7]" = Json.arr [Json.num 7] :=
  ⟨(parseBody_never_fails "").1 rfl,
   (parseBody_never_fails "\x7boops").2.1 rfl,
   (parseBody_never_fails "[7]").2.2 (Json.arr [Json.num 7]) rfl (by decide)⟩

/-- C4: the document the one-shot `except` branch prints has status 500,
a headers mapping carrying `Content-Type: application/json`, and a body
that is the serialisation of a JSON object whose `error` field holds the
failure's textual message; at a concrete message the printed text parses
back to exactly that document. -/
theorem error_response_is_500_json (msg : String) :
    (error_response msg).lookup "status" = some (Json.num 500) ∧
    (error_response msg).lookup "headers" =
      some (Json.obj [("Content-Type", Json.str "application/json")]) ∧
    (error_response msg).lookup "body" =
      some (Json.str (Json.dumps (Json.obj [("error", Json.str msg)]))) ∧
    jsonParse (Json.dumps (error_response "division by zero")) =
      some (error_response "division by zero") :=
  ⟨rfl, rfl, rfl, rfl⟩

/-- C5, counterexample: with the unparsable body `"\x7bnot json"`, a
`DELETE` on the users collection yields no response record at all, so
"returns a well-formed response record" does not hold of every request
with an invalid body. -/
theorem dispatch_invalid_body_counterexample :
    jsonParse "\x7bnot json" = none ∧
    dispatch ⟨"DELETE", "/flask-example/users", [], [], "\x7bnot json"⟩ = none :=
  ⟨rfl, rfl⟩

/-- C5, amended: an unparsable body never raises — `handle` still returns
normally — and dispatch proceeds with the empty mapping as parsed body;
it returns a well-formed response (JSON content type, status 200, 201 or
404) in every case except the users-collection fall-through for methods
other than `GET`/`POST`, which produces no response. -/
theorem dispatch_invalid_body_no_raise (r : Request)
    (hbad : jsonParse r.body = none) :
    handle (reqToJson r) = Except.ok (dispatch r) ∧
    parseBody r.body = Json.obj [] ∧
    (dispatch r = none ↔
      r.path = "/flask-example/users" ∧ r.method ≠ "GET" ∧ r.method ≠ "POST") ∧
    (∀ resp, dispatch r = some resp → resp.headers = jsonHeaders ∧
      (resp.status = 200 ∨ resp.status = 201 ∨ resp.status = 404)) := by
  refine ⟨handle_reqToJson r, ?_, dispatch_none_iff r,
    fun resp hresp => dispatch_some_wellformed r resp hresp⟩
  by_cases hbe : r.body = "" <;> simp [parseBody, hbe, hbad]

/-- C5, witness: the amended claim at a `GET` of an unknown path with an
unparsable body: nothing raised, empty parsed body, and a well-formed
404 response. -/
theorem dispatch_invalid_body_no_raise_witness :
    parseBody "\x7bnot json at all" = Json.obj [] ∧
    (dispatch ⟨"GET", "/nope", [], [], "\x7bnot json at all"⟩ = none ↔
      ("/nope" : String) = "/flask-example/users" ∧
        ("GET" : String) ≠ "GET" ∧ ("GET" : String) ≠ "POST") :=
  ⟨(dispatch_invalid_body_no_raise ⟨"GET", "/nope", [], [], "\x7bnot json at all"⟩ rfl).2.1,
   (dispatch_invalid_body_no_raise ⟨"GET", "/nope", [], [], "\x7bnot json at all"⟩ rfl).2.2.1⟩

/-- C6: every `GET` of the users-collection path returns status 200 with
the one fixed body string, that string decodes to the fixed document, and
the document's `users` field is the ordered two-element list
Alice-then-Bob. -/
theorem dispatch_users_get_fixed_list (r : Request)
    (hpath : r.path = "/flask-example/users") (hmethod : r.method = "GET") :
    dispatch r = some ⟨200, jsonHeaders, usersDoc.dumps⟩ ∧
    jsonParse usersDoc.dumps = some usersDoc ∧
    usersDoc.lookup "users" = some (Json.arr
      [Json.obj [("id", Json.num 1), ("name", Json.str "Alice")],
       Json.obj [("id", Json.num 2), ("name", Json.str "Bob")]]) := by
  obtain ⟨m, p, q, h, b⟩ := r
  simp only at hpath hmethod
  subst hpath; subst hmethod
  exact ⟨rfl, rfl, rfl⟩

/-- C6, witness: the fixed list response at a concrete `GET`, with
nonempty query and header mappings. -/
theorem dispatch_users_get_fixed_list_witness :
    dispatch ⟨"GET", "/flask-example/users", [("page", "2")], [("X-Y", "z")], ""⟩ =
      some ⟨200, jsonHeaders, usersDoc.dumps⟩ ∧
    jsonParse usersDoc.dumps = some usersDoc :=
  ⟨(dispatch_users_get_fixed_list
      ⟨"GET", "/flask-example/users", [("page", "2")], [("X-Y", "z")], ""⟩ rfl rfl).1,
   (dispatch_users_get_fixed_list
      ⟨"GET", "/flask-example/users", [("page", "2")], [("X-Y", "z")], ""⟩ rfl rfl).2.1⟩

/-- C7: every `POST` of the users-collection path with body
`\x7b"name":"Zoe"\x7d` returns status 201, and the response body decodes
to a document whose `data` field equals the parsed request body
`\x7b"name": "Zoe"\x7d` and whose `message` field is the confirmation. -/
theorem dispatch_users_post_zoe (r : Request)
    (hpath : r.path = "/flask-example/users") (hmethod : r.method = "POST")
    (hbody : r.body = "\x7b\"name\":\"Zoe\"\x7d") :
    ∃ resp, dispatch r = some resp ∧ resp.status = 201 ∧
      (jsonParse resp.body).bind (fun d => d.lookup "data") =
        some (Json.obj [("name", Json.str "Zoe")]) ∧
      (jsonParse resp.body).bind (fun d => d.lookup "message") =
        some (Json.str "User created") := by
  obtain ⟨m, p, q, h, b⟩ := r
  simp only at hpath hmethod hbody
  subst hpath; subst hmethod; subst hbody
  exact ⟨⟨201, jsonHeaders,
    (createdDoc (Json.obj [("name", Json.str "Zoe")])).dumps⟩, rfl, rfl, rfl, rfl⟩

/-- C7, witness: the echo response at a concrete `POST`. -/
theorem dispatch_users_post_zoe_witness :
    ∃ resp,
      dispatch ⟨"POST", "/flask-example/users", [], [("Accept", "a")],
        "\x7b\"name\":\"Zoe\"\x7d"⟩ = some resp ∧ resp.status = 201 ∧
      (jsonParse resp.body).bind (fun d => d.lookup "data") =
        some (Json.obj [("name", Json.str "Zoe")]) ∧
      (jsonParse resp.body).bind (fun d => d.lookup "message") =
        some (Json.str "User created") :=
  dispatch_users_post_zoe
    ⟨"POST", "/flask-example/users", [], [("Accept", "a")],
      "\x7b\"name\":\"Zoe\"\x7d"⟩ rfl rfl rfl

/-- C8: every request whose path starts with the user-detail prefix gets
status 200 and the user-detail body whose `id` field is the substring
after the last slash, taken verbatim as a string — no integer parsing and
no lookup in the canned user list. -/
theorem dispatch_user_detail_verbatim_id (r : Request)
    (hpre : startswith r.path "/flask-example/users/" = true) :
    dispatch r =
      some ⟨200, jsonHeaders, (userDetailDoc (lastSegment r.path) r.path).dumps⟩ ∧
    (userDetailDoc (lastSegment r.path) r.path).lookup "id" =
      some (Json.str (lastSegment r.path)) := by
  obtain ⟨m, p, q, h, b⟩ := r
  simp only at hpre ⊢
  have h1 : p ≠ "/" := by rintro rfl; exact absurd hpre (by decide)
  have h2 : p ≠ "/flask-example" := by rintro rfl; exact absurd hpre (by decide)
  have h3 : p ≠ "/flask-example/hello" := by
    rintro rfl; exact absurd hpre (by decide)
  have h4 : p ≠ "/flask-example/users" := by
    rintro rfl; exact absurd hpre (by decide)
  refine ⟨?_, rfl⟩
  simp [dispatch, h1, h2, h3, h4, hpre]

/-- C8, witness: at path `/flask-example/users/42` the `id` is the
literal string `"42"` although no such user is in the canned list. -/
theorem dispatch_user_detail_verbatim_id_witness :
    dispatch ⟨"GET", "/flask-example/users/42", [], [], ""⟩ =
      some ⟨200, jsonHeaders,
        (userDetailDoc "42" "/flask-example/users/42").dumps⟩ ∧
    (jsonParse ((userDetailDoc "42" "/flask-example/users/42").dumps)).bind
      (fun d => d.lookup "id") = some (Json.str "42") :=
  ⟨(dispatch_user_detail_verbatim_id
      ⟨"GET", "/flask-example/users/42", [], [], ""⟩ (by decide)).1, rfl⟩

/-- C9: one-shot mode on empty standard input substitutes the empty dict,
whose defaulted fields are method `GET` and path `/`, so the printed
document is exactly the dispatch of the all-default request — which
matches the root route with a 200 greeting. -/
theorem oneShot_empty_input_default :
    oneShot "" = OneShotOut.printed (resultToJson (dispatch ⟨"GET", "/", [], [], ""⟩)) ∧
    dispatch ⟨"GET", "/", [], [], ""⟩ =
      some ⟨200, jsonHeaders, (helloDoc (Json.str "/") (Json.str "GET")).dumps⟩ :=
  ⟨rfl, rfl⟩

/-- C10: the dispatch result depends only on method, path and body — two
requests agreeing on those three fields get identical responses, whatever
their query and header mappings. -/
theorem dispatch_depends_only_on_method_path_body (r1 r2 : Request)
    (hm : r1.method = r2.method) (hp : r1.path = r2.path)
    (hb : r1.body = r2.body) :
    dispatch r1 = dispatch r2 := by
  obtain ⟨m1, p1, q1, h1, b1⟩ := r1
  obtain ⟨m2, p2, q2, h2, b2⟩ := r2
  simp only at hm hp hb
  subst hm; subst hp; subst hb
  rfl

/-- C10, witness: two concrete requests differing in query and headers —
one with an authorization header, one without — get the same response. -/
theorem dispatch_depends_only_on_method_path_body_witness :
    dispatch ⟨"GET", "/flask-example/users", [("debug", "1")],
        [("Authorization", "secret")], ""⟩ =
      dispatch ⟨"GET", "/flask-example/users", [], [("X-Other", "y")], ""⟩ :=
  dispatch_depends_only_on_method_path_body
    ⟨"GET", "/flask-example/users", [("debug", "1")],
      [("Authorization", "secret")], ""⟩
    ⟨"GET", "/flask-example/users", [], [("X-Other", "y")], ""⟩ rfl rfl rfl
